import Mathlib

/-
  Verification of the ic-verifier repository.

  Shallow embedding of `src/verify.py` (verdict engine: `_parse_response`,
  `verify_ic`, `save_to_cache`, the `@lru_cache` memoization) and of
  `src/datasheet.py` (`score_page`, `extract_relevant_lines`).

  Python JSON values are modelled by `JValue`; Python dicts produced by
  `json.loads` are association lists with unique keys (later duplicate keys
  overwrite in place, as CPython's dict does).  Machine-level details that no
  theorem depends on (full Unicode case tables, float values) are modelled to
  the precision stated in the doc comment of each definition.
-/

/-- Model of a Python value produced by `json.loads`.  `jfloat` stores the
consumed number literal; its numeric value is never inspected downstream
(the code only ever asks `isinstance(x, int)`, which is false for floats). -/
inductive JValue where
  | jnull
  | jbool (b : Bool)
  | jint (n : Int)
  | jfloat (lit : List Char)
  | jstr (s : String)
  | jarr (elems : List JValue)
  | jobj (fields : List (String × JValue))

abbrev PyDict := List (String × JValue)

/-- Code points stripped by Python's `str.strip()` (the `str.isspace` set). -/
def pySpaceCodes : List Nat :=
  [9, 10, 11, 12, 13, 28, 29, 30, 31, 32, 133, 160, 5760,
   8192, 8193, 8194, 8195, 8196, 8197, 8198, 8199, 8200, 8201, 8202,
   8232, 8233, 8239, 8287, 12288]

def pyIsSpace (c : Char) : Bool := pySpaceCodes.contains c.toNat

/-- Python `str.strip()` over the character list. -/
def pyStripChars (cs : List Char) : List Char :=
  ((cs.dropWhile pyIsSpace).reverse.dropWhile pyIsSpace).reverse

/-- Python `str.strip()`. -/
def pyStrip (s : String) : String := String.mk (pyStripChars s.data)

/-- Python `str.startswith` / list-of-chars version. -/
def charsLeads : List Char → List Char → Bool
  | [], _ => true
  | _ :: _, [] => false
  | a :: as, b :: bs => a == b && charsLeads as bs

/-- Python substring containment `needle in hay` for strings. -/
def charsSub (needle : List Char) : List Char → Bool
  | [] => charsLeads needle []
  | c :: rest => charsLeads needle (c :: rest) || charsSub needle rest

/-- Python `str.upper()`.  ASCII case mapping only; every string any theorem
touches is ASCII, as are all keyword constants of the source. -/
def toUpperChars (cs : List Char) : List Char := cs.map Char.toUpper

/-- Python `str.lower()` (ASCII case mapping, see `toUpperChars`). -/
def toLowerChars (cs : List Char) : List Char := cs.map Char.toLower

/-- First occurrence of `sep` in a list: the part before it and the part
after it.  Helper for Python `str.split(sep)` with non-empty `sep`. -/
def findSep (sep : List Char) : List Char → Option (List Char × List Char)
  | [] => none
  | c :: cs =>
    if charsLeads sep (c :: cs) then some ([], (c :: cs).drop sep.length)
    else
      match findSep sep cs with
      | some (p, r) => some (c :: p, r)
      | none => none

def pySplitAux (sep : List Char) : Nat → List Char → List (List Char)
  | 0, s => [s]
  | fuel + 1, s =>
    match findSep sep s with
    | none => [s]
    | some (p, r) => p :: pySplitAux sep fuel r

/-- Python `str.split(sep)` for a non-empty separator. -/
def pySplit (sep s : List Char) : List (List Char) := pySplitAux sep (s.length + 1) s

/- ----------------------------------------------------------------------
   A model of Python's `json.loads` (strict mode, as used by verify.py).
   ---------------------------------------------------------------------- -/

def jsonWs (c : Char) : Bool := c == ' ' || c == '\t' || c == '\n' || c == '\r'

def skipWs (cs : List Char) : List Char := cs.dropWhile jsonWs

def isDigitCh (c : Char) : Bool := 48 ≤ c.toNat && c.toNat ≤ 57

def hexVal (c : Char) : Option Nat :=
  if 48 ≤ c.toNat && c.toNat ≤ 57 then some (c.toNat - 48)
  else if 97 ≤ c.toNat && c.toNat ≤ 102 then some (c.toNat - 87)
  else if 65 ≤ c.toNat && c.toNat ≤ 70 then some (c.toNat - 55)
  else none

/-- Body of a JSON string after the opening quote, with Python's strict
escape rules: only the standard escapes are legal, unescaped control
characters are rejected.  A `\u` escape denoting a lone surrogate is mapped
to the replacement behaviour of `Char.ofNat` (no theorem exercises it). -/
def parseStrBody (acc : List Char) : List Char → Option (String × List Char)
  | [] => none
  | '"' :: rest => some (String.mk acc.reverse, rest)
  | '\\' :: '"' :: r => parseStrBody ('"' :: acc) r
  | '\\' :: '\\' :: r => parseStrBody ('\\' :: acc) r
  | '\\' :: '/' :: r => parseStrBody ('/' :: acc) r
  | '\\' :: 'b' :: r => parseStrBody ('\x08' :: acc) r
  | '\\' :: 'f' :: r => parseStrBody ('\x0c' :: acc) r
  | '\\' :: 'n' :: r => parseStrBody ('\n' :: acc) r
  | '\\' :: 'r' :: r => parseStrBody ('\r' :: acc) r
  | '\\' :: 't' :: r => parseStrBody ('\t' :: acc) r
  | '\\' :: 'u' :: h1 :: h2 :: h3 :: h4 :: r =>
    (match hexVal h1, hexVal h2, hexVal h3, hexVal h4 with
     | some a, some b, some c, some d =>
       parseStrBody (Char.ofNat (((a * 16 + b) * 16 + c) * 16 + d) :: acc) r
     | _, _, _, _ => none)
  | '\\' :: _ => none
  | c :: rest => if c.toNat < 32 then none else parseStrBody (c :: acc) rest

def digitsToNat (ds : List Char) : Nat := ds.foldl (fun n c => n * 10 + (c.toNat - 48)) 0

/-- Optional exponent part of a JSON number.  `some (expChars, rest)`;
`expChars = []` when no exponent marker is present; `none` on a malformed
exponent. -/
def scanExp (cs : List Char) : Option (List Char × List Char) :=
  match cs with
  | 'e' :: r | 'E' :: r =>
    (match r with
     | '+' :: d :: r2 =>
       if isDigitCh d then
         let (ds, r3) := List.span isDigitCh r2
         some ('e' :: '+' :: d :: ds, r3)
       else none
     | '-' :: d :: r2 =>
       if isDigitCh d then
         let (ds, r3) := List.span isDigitCh r2
         some ('e' :: '-' :: d :: ds, r3)
       else none
     | d :: r2 =>
       if isDigitCh d then
         let (ds, r3) := List.span isDigitCh r2
         some ('e' :: d :: ds, r3)
       else none
     | [] => none)
  | _ => some ([], cs)

/-- Assemble a number once integer digits and optional fraction digits are
known.  A number with a fraction or exponent part is a Python float,
otherwise a Python int — `json.loads` makes exactly this distinction. -/
def mkNumber (neg : Bool) (ids fracCs : List Char) (cs : List Char) :
    Option (JValue × List Char) :=
  match scanExp cs with
  | none => none
  | some (expCs, rest) =>
    if fracCs.isEmpty && expCs.isEmpty then
      let v : Int := Int.ofNat (digitsToNat ids)
      some (.jint (if neg then -v else v), rest)
    else
      some (.jfloat ((if neg then ['-'] else []) ++ ids ++ fracCs ++ expCs), rest)

def mkNumberFrac (neg : Bool) (ids : List Char) (cs : List Char) :
    Option (JValue × List Char) :=
  match cs with
  | '.' :: r =>
    (match r with
     | d :: r2 =>
       if isDigitCh d then
         let (ds, r3) := List.span isDigitCh r2
         mkNumber neg ids ('.' :: d :: ds) r3
       else none
     | [] => none)
  | _ => mkNumber neg ids [] cs

/-- JSON number grammar: `0`, or a nonzero digit followed by digits
(leading zeros terminate the literal, exactly as in Python's json). -/
def parseNumber (neg : Bool) (cs : List Char) : Option (JValue × List Char) :=
  match cs with
  | '0' :: rest => mkNumberFrac neg ['0'] rest
  | c :: rest =>
    if isDigitCh c then
      let (ds, r1) := List.span isDigitCh rest
      mkNumberFrac neg (c :: ds) r1
    else none
  | [] => none

def openBrace : Char := Char.ofNat 123
def closeBrace : Char := Char.ofNat 125

/-- CPython dict insertion `d[k] = v`: overwrite in place when the key
exists, append otherwise. -/
def dictInsert (kvs : PyDict) (k : String) (v : JValue) : PyDict :=
  match kvs with
  | [] => [(k, v)]
  | (k', v') :: rest => if k' = k then (k, v) :: rest else (k', v') :: dictInsert rest k v

/-- Python dict lookup; keys are unique after `dictInsert`. -/
def dictGet (kvs : PyDict) (k : String) : Option JValue :=
  match kvs with
  | [] => none
  | (k', v) :: rest => if k' = k then some v else dictGet rest k

mutual

/-- Recursive-descent JSON value parser (fuel-indexed; `jsonLoads` supplies
fuel larger than any possible recursion depth).  Mirrors Python's json:
null / true / false / NaN / Infinity / -Infinity / strings / numbers /
arrays / objects, with JSON whitespace skipped before a value. -/
def parseVal : Nat → List Char → Option (JValue × List Char)
  | 0, _ => none
  | fuel + 1, cs =>
    match skipWs cs with
    | 'n' :: 'u' :: 'l' :: 'l' :: rest => some (.jnull, rest)
    | 't' :: 'r' :: 'u' :: 'e' :: rest => some (.jbool true, rest)
    | 'f' :: 'a' :: 'l' :: 's' :: 'e' :: rest => some (.jbool false, rest)
    | 'N' :: 'a' :: 'N' :: rest => some (.jfloat ['N', 'a', 'N'], rest)
    | 'I' :: 'n' :: 'f' :: 'i' :: 'n' :: 'i' :: 't' :: 'y' :: rest =>
      some (.jfloat "Infinity".data, rest)
    | '-' :: 'I' :: 'n' :: 'f' :: 'i' :: 'n' :: 'i' :: 't' :: 'y' :: rest =>
      some (.jfloat "-Infinity".data, rest)
    | '"' :: rest =>
      (match parseStrBody [] rest with
       | some (s, r) => some (.jstr s, r)
       | none => none)
    | '[' :: rest => parseArrRest fuel rest []
    | '-' :: rest => parseNumber true rest
    | c :: rest =>
      if c = openBrace then parseObjRest fuel rest []
      else if isDigitCh c then parseNumber false (c :: rest)
      else none
    | [] => none

/-- Elements of an array after `[` or after a `,`. -/
def parseArrRest : Nat → List Char → List JValue → Option (JValue × List Char)
  | 0, _, _ => none
  | fuel + 1, cs, acc =>
    match skipWs cs with
    | ']' :: rest => if acc.isEmpty then some (.jarr [], rest) else none
    | cs2 =>
      match parseVal fuel cs2 with
      | none => none
      | some (v, r1) =>
        match skipWs r1 with
        | ',' :: r2 => parseArrRest fuel r2 (acc ++ [v])
        | ']' :: r2 => some (.jarr (acc ++ [v]), r2)
        | _ => none

/-- Members of an object after the opening brace or after a `,`. -/
def parseObjRest : Nat → List Char → PyDict → Option (JValue × List Char)
  | 0, _, _ => none
  | fuel + 1, cs, acc =>
    match skipWs cs with
    | [] => none
    | c :: rest =>
      if c = closeBrace then (if acc.isEmpty then some (.jobj [], rest) else none)
      else if c = '"' then
        match parseStrBody [] rest with
        | none => none
        | some (k, r1) =>
          match skipWs r1 with
          | ':' :: r2 =>
            (match parseVal fuel r2 with
             | none => none
             | some (v, r3) =>
               match skipWs r3 with
               | ',' :: r4 => parseObjRest fuel r4 (dictInsert acc k v)
               | c2 :: r4 =>
                 if c2 = closeBrace then some (.jobj (dictInsert acc k v), r4) else none
               | [] => none)
          | _ => none
      else none

end

/-- Python `json.loads`: parse one value, then require only whitespace up
to the end of input. -/
def jsonLoads (s : String) : Option JValue :=
  match parseVal (s.data.length + 8) s.data with
  | some (v, rest) => if (skipWs rest).isEmpty then some v else none
  | none => none


/- ----------------------------------------------------------------------
   src/verify.py — response validation (_parse_response)
   ---------------------------------------------------------------------- -/

/-- Python `str()` of a parsed-JSON value, used by the f-string on the
cache-hit path of `verify_ic`.  Containers are rendered in an abbreviated
repr; every theorem below only ever applies `pyStr` to strings. -/
def pyStr : JValue → String
  | .jnull => "None"
  | .jbool true => "True"
  | .jbool false => "False"
  | .jint n => toString n
  | .jfloat lit => String.mk lit
  | .jstr s => s
  | .jarr _ => "[...]"
  | .jobj _ => String.mk (openBrace :: "...".data ++ [closeBrace])

def fenceChars : List Char := "```".data

/-- Fence stripping of `_parse_response`:
`if cleaned.startswith("```"): cleaned = cleaned.split("```")[1];`
`if cleaned.lower().startswith("json"): cleaned = cleaned[4:]`.
`none` is the IndexError branch, caught by the source's `except` clause
(it is unreachable, since a string starting with the fence splits into at
least two parts, but the model keeps the handler). -/
def stripFences (cleaned : String) : Option String :=
  if charsLeads fenceChars cleaned.data then
    match (pySplit fenceChars cleaned.data).get? 1 with
    | none => none
    | some seg =>
      if charsLeads "json".data (toLowerChars seg) then some (String.mk (seg.drop 4))
      else some (String.mk seg)
  else some cleaned

/-- The source's check `verdict.get("result") in ("GENUINE", "FAKE", "UNVERIFIABLE")`. -/
def resultOk (kvs : PyDict) : Bool :=
  match dictGet kvs "result" with
  | some (.jstr s) => s = "GENUINE" || s = "FAKE" || s = "UNVERIFIABLE"
  | _ => false

/-- Python `isinstance(x, int)`: true for ints and for bools (`bool` is a
subclass of `int` in Python), false for floats, strings and the rest. -/
def pyIsInt : JValue → Bool
  | .jint _ => true
  | .jbool _ => true
  | _ => false

/-- The source's check `isinstance(verdict.get("confidence"), int)`. -/
def confidenceOk (kvs : PyDict) : Bool :=
  match dictGet kvs "confidence" with
  | some v => pyIsInt v
  | none => false

/-- The source's check `isinstance(verdict.get("reasoning"), str)`. -/
def reasoningOk (kvs : PyDict) : Bool :=
  match dictGet kvs "reasoning" with
  | some (.jstr _) => true
  | _ => false

/-- `_parse_response(raw)` of src/verify.py: strip, unwrap a markdown
fence, `json.loads`, then validate the three required fields.  Any JSON
value that is not an object makes `verdict.get` raise AttributeError,
which the source catches and turns into `None`, exactly like a parse
error. -/
def parseResponse (raw : String) : Option PyDict :=
  match stripFences (pyStrip raw) with
  | none => none
  | some cleaned =>
    match jsonLoads (pyStrip cleaned) with
    | some (.jobj kvs) =>
      if resultOk kvs && confidenceOk kvs && reasoningOk kvs then some kvs else none
    | _ => none

/- ----------------------------------------------------------------------
   src/verify.py — save_to_cache and the persisted cache
   ---------------------------------------------------------------------- -/

/-- The entry object `save_to_cache` writes:
`{"result": result, "verified_by": "human", "oem_spec": oem_spec,`
` "timestamp": datetime.now().isoformat(), "notes": notes}`.
The timestamp is a parameter of the model. -/
def savedEntry (result oem_spec notes timestamp : String) : JValue :=
  .jobj [("result", .jstr result), ("verified_by", .jstr "human"),
         ("oem_spec", .jstr oem_spec), ("timestamp", .jstr timestamp),
         ("notes", .jstr notes)]

/-- `save_to_cache(ic_part_number, result, oem_spec, notes)` as a transition
on the persisted mapping (`load_cache` read → insert → write back).  A
result outside `("GENUINE", "FAKE")` is rejected before any read or write,
leaving the mapping unchanged; a failed disk write also leaves the
persisted file unchanged, so it needs no separate branch. -/
def saveToCache (cache : PyDict) (ic_part_number result oem_spec notes timestamp : String) :
    PyDict :=
  if !(result == "GENUINE" || result == "FAKE") then cache
  else dictInsert cache ic_part_number (savedEntry result oem_spec notes timestamp)

/-- Persisted caches reachable from the empty store (absent or corrupt
file, which `load_cache` treats as `{}`) by `save_to_cache` calls. -/
inductive CacheReachable : PyDict → Prop where
  | base : CacheReachable []
  | step (cache : PyDict) (p r o n t : String) :
      CacheReachable cache → CacheReachable (saveToCache cache p r o n t)

/-- An entry of the exact shape `save_to_cache` writes, with a result the
guard of `save_to_cache` accepts. -/
def SavedShape (v : JValue) : Prop :=
  ∃ r o n t, v = savedEntry r o n t ∧ (r = "GENUINE" ∨ r = "FAKE")

/-- Every entry of the mapping has the shape written by `save_to_cache`. -/
def SavedCache (cache : PyDict) : Prop :=
  ∀ k v, dictGet cache k = some v → SavedShape v

/- ----------------------------------------------------------------------
   src/verify.py — verify_ic
   ---------------------------------------------------------------------- -/

/-- Python exceptions the cache-hit path of `verify_ic` can raise when
the persisted file was edited by hand: `cached["result"]` /
`cached["timestamp"]` raise KeyError on a dict without the key and
TypeError when the entry is not a dict at all. -/
inductive PyErr where
  | keyError
  | typeError

/-- The guard test `not oem_spec_text or not oem_spec_text.strip()`;
`none` models passing `None` for `oem_spec_text`. -/
def oemMissing : Option String → Bool
  | none => true
  | some s => s.data.isEmpty || (pyStripChars s.data).isEmpty

/-- The cache-hit verdict of `verify_ic`:
`{"result": cached["result"], "confidence": 99, "reasoning":`
` f"Previously verified by human QA on {cached['timestamp']}. {cached.get('notes', '')}".strip()}`. -/
def buildCacheVerdict (cached : JValue) : Except PyErr PyDict :=
  match cached with
  | .jobj kvs =>
    (match dictGet kvs "result" with
     | none => .error .keyError
     | some r =>
       match dictGet kvs "timestamp" with
       | none => .error .keyError
       | some ts =>
         let notes := (dictGet kvs "notes").getD (.jstr "")
         .ok [("result", r), ("confidence", .jint 99),
              ("reasoning", .jstr (pyStrip
                ("Previously verified by human QA on " ++ pyStr ts ++ ". " ++ pyStr notes)))])
  | _ => .error .typeError

/-- `verify_ic(scanned_text, oem_spec_text, ic_part_number)` for one
un-memoized evaluation (the `@lru_cache` wrapper is `verifyMemo` below).
`cache` is the mapping `load_cache()` returns; `replies` gives, for each
successive `_call_groq_api` invocation, the raw reply string or `none` for
a transport failure (the source's `None` return).  The second component
counts the reasoning-service calls actually made. -/
def verifyIC (scanned_text : String) (oem_spec_text : Option String)
    (ic_part_number : String) (cache : PyDict) (replies : Nat → Option String) :
    Except PyErr PyDict × Nat :=
  match dictGet cache ic_part_number with
  | some cached => (buildCacheVerdict cached, 0)
  | none =>
    if oemMissing oem_spec_text then
      (.ok [("result", .jstr "UNVERIFIABLE"), ("confidence", .jint 0),
            ("reasoning", .jstr "OEM spec text is missing or empty. Cannot perform verification.")],
       0)
    else
      match replies 0 with
      | none =>
        (.ok [("result", .jstr "UNVERIFIABLE"), ("confidence", .jint 0),
              ("reasoning", .jstr "API call failed. Unable to reach Groq service.")], 1)
      | some raw1 =>
        match parseResponse raw1 with
        | some verdict => (.ok verdict, 1)
        | none =>
          match replies 1 with
          | none =>
            (.ok [("result", .jstr "UNVERIFIABLE"), ("confidence", .jint 0),
                  ("reasoning", .jstr "API call failed on retry. Unable to reach Groq service.")],
             2)
          | some raw2 =>
            match parseResponse raw2 with
            | some verdict => (.ok verdict, 2)
            | none =>
              (.ok [("result", .jstr "UNVERIFIABLE"), ("confidence", .jint 0),
                    ("reasoning", .jstr "Model returned an unreadable response after two attempts.")],
               2)

/- ----------------------------------------------------------------------
   src/verify.py — the @lru_cache(maxsize=128) wrapper around verify_ic
   ---------------------------------------------------------------------- -/

abbrev MemoKey := String × Option String × String

/-- Memo table of the `@lru_cache` wrapper, most recently used first. -/
abbrev MemoTable := List (MemoKey × PyDict)

def memoFind (t : MemoTable) (k : MemoKey) : Option PyDict :=
  match t with
  | [] => none
  | (k', v) :: rest => if k' = k then some v else memoFind rest k

def memoErase (t : MemoTable) (k : MemoKey) : MemoTable :=
  t.filter (fun e => !(e.1 = k : Bool)) 

def lruCacheSize : Nat := 128

/-- One call of the memoized `verify_ic`: a hit on the raw argument triple
returns the stored verdict with no work (the entry moves to the front);
a miss computes `verifyIC`, stores a successful result (evicting beyond
`maxsize=128`), and — like `functools.lru_cache` — does not store a raised
exception. -/
def verifyMemo (memo : MemoTable) (cache : PyDict) (replies : Nat → Option String)
    (scanned_text : String) (oem_spec_text : Option String) (ic_part_number : String) :
    Except PyErr PyDict × MemoTable × Nat :=
  let key : MemoKey := (scanned_text, oem_spec_text, ic_part_number)
  match memoFind memo key with
  | some d => (.ok d, (key, d) :: memoErase memo key, 0)
  | none =>
    match verifyIC scanned_text oem_spec_text ic_part_number cache replies with
    | (.ok d, n) => (.ok d, ((key, d) :: memo).take lruCacheSize, n)
    | (.error e, n) => (.error e, memo, n)


/- ----------------------------------------------------------------------
   src/datasheet.py — score_page and extract_relevant_lines
   ---------------------------------------------------------------------- -/

def KEYWORD_PATTERNS : List String := ["MARK", "ORDER", "PART", "DEVICE", "IDENT", "TOP"]

def IGNORE_WORDS : List String := ["REVISION", "HISTORY", "CHANGE", "TABLE OF CONTENTS"]

/-- `score_page(text, ic_name)` of src/datasheet.py: 0 when a denylisted
term occurs in the first fifth of the upper-cased page text; otherwise +5
when the upper-cased identifier occurs anywhere, then +1 per keyword
pattern present (the source's accumulating loop). -/
def scorePage (text ic_name : String) : Int :=
  let text_upper := toUpperChars text.data
  let first_section := text_upper.take (text_upper.length / 5)
  if IGNORE_WORDS.any (fun w => charsSub w.data first_section) then 0
  else
    let score : Int := 0
    let score := if charsSub (toUpperChars ic_name.data) text_upper then score + 5 else score
    KEYWORD_PATTERNS.foldl (fun s p => if charsSub p.data text_upper then s + 1 else s) score

/-- Follows the spec's words (document scorer contract): 0 on a denylist
hit in the first fifth, else 5 for an identifier occurrence plus the
number of distinct relevance keywords present, each counted once. -/
def scorePageSpec (text ic_name : String) : Int :=
  let text_upper := toUpperChars text.data
  let first_section := text_upper.take (text_upper.length / 5)
  if IGNORE_WORDS.any (fun w => charsSub w.data first_section) then 0
  else
    (if charsSub (toUpperChars ic_name.data) text_upper then 5 else 0) +
      ((KEYWORD_PATTERNS.filter (fun p => charsSub p.data text_upper)).length : Int)

/-- Metacharacters of Python's `re` syntax.  In `re.compile(ic_name, ...)`
these do not match themselves literally. -/
def regexMetaChars : List Char := "\\.^$*+?[]()|".data ++ [openBrace, closeBrace]

def isRegexMeta (c : Char) : Bool := regexMetaChars.contains c

/-- A compiled regex token: a literal character or the `.` wildcard. -/
inductive RTok where
  | lit (c : Char)
  | dot

/-- Model of `re.compile(ic_name, re.IGNORECASE)` for the fragment the
theorems exercise: ordinary characters compile to literals and `.` to the
any-character wildcard.  Any other metacharacter yields `none`, covering
both patterns that raise `re.error` (for example an unbalanced `(`) and
regex constructs the model does not interpret. -/
def reCompileChars : List Char → Option (List RTok)
  | [] => some []
  | c :: rest =>
    if c = '.' then (reCompileChars rest).map (fun ts => RTok.dot :: ts)
    else if isRegexMeta c then none
    else (reCompileChars rest).map (fun ts => RTok.lit c :: ts)

/-- Anchored match of a compiled pattern at the head of the input, with
`re.IGNORECASE` (ASCII case folding); `.` matches any character except a
newline, as in Python without DOTALL. -/
def reMatchHere : List RTok → List Char → Bool
  | [], _ => true
  | .lit c :: ts, d :: ds => (c.toLower == d.toLower) && reMatchHere ts ds
  | .dot :: ts, d :: ds => !(d == '\n') && reMatchHere ts ds
  | _ :: _, [] => false

/-- `pattern.search(s)`: does the pattern match at any position? -/
def reSearch (ts : List RTok) : List Char → Bool
  | [] => reMatchHere ts []
  | d :: ds => reMatchHere ts (d :: ds) || reSearch ts ds

/-- Python `text.split("\n")`. -/
def splitLinesChars : List Char → List (List Char)
  | [] => [[]]
  | c :: rest =>
    if c = '\n' then [] :: splitLinesChars rest
    else
      match splitLinesChars rest with
      | [] => [[c]]
      | l :: ls => (c :: l) :: ls

/-- Python `"\n".join(lines)`. -/
def joinNl : List (List Char) → List Char
  | [] => []
  | [l] => l
  | l :: l2 :: rest => l ++ '\n' :: joinNl (l2 :: rest)

/-- `extract_relevant_lines(text, ic_name)` of src/datasheet.py: compile
the identifier as a case-insensitive regex (`none` when compilation
raises, see `reCompileChars`), then keep each stripped non-blank line that
the pattern matches, or that contains a keyword pattern in upper case;
join with newlines. -/
def extractRelevantLines (text ic_name : String) : Option String :=
  match reCompileChars ic_name.data with
  | none => none
  | some pat =>
    let lines := splitLinesChars text.data
    let relevant := lines.foldr (fun line acc =>
      let line_stripped := pyStripChars line
      if line_stripped.isEmpty then acc
      else if reSearch pat line_stripped then line_stripped :: acc
      else if KEYWORD_PATTERNS.any (fun kw => charsSub kw.data (toUpperChars line_stripped)) then
        line_stripped :: acc
      else acc) []
    some (String.mk (joinNl relevant))

/-- Case-insensitive substring containment (ASCII folding). -/
def ciSub (needle hay : List Char) : Bool := charsSub (toLowerChars needle) (toLowerChars hay)

/-- Follows the words of claim C9 (not the source): the newline-join of
exactly those non-blank input lines that contain the identifier as a
case-insensitive substring, or that contain a relevance keyword. -/
def extractRelevantLinesClaim (text ic_name : String) : String :=
  let lines := splitLinesChars text.data
  let relevant := lines.foldr (fun line acc =>
    if (pyStripChars line).isEmpty then acc
    else if ciSub ic_name.data line
        || KEYWORD_PATTERNS.any (fun kw => charsSub kw.data (toUpperChars line)) then
      line :: acc
    else acc) []
  String.mk (joinNl relevant)

/-- The amended contract of the passage extractor: the newline-join of the
stripped forms of the non-blank lines whose stripped form contains the
identifier as a case-insensitive substring or contains a relevance
keyword. -/
def extractRelevantLinesStrippedSpec (text ic_name : String) : String :=
  let lines := splitLinesChars text.data
  let relevant := lines.foldr (fun line acc =>
    let line_stripped := pyStripChars line
    if line_stripped.isEmpty then acc
    else if ciSub ic_name.data line_stripped
        || KEYWORD_PATTERNS.any (fun kw => charsSub kw.data (toUpperChars line_stripped)) then
      line_stripped :: acc
    else acc) []
  String.mk (joinNl relevant)


/- ----------------------------------------------------------------------
   Concrete reasoning-service replies used by witnesses and counterexamples
   ---------------------------------------------------------------------- -/

/-- A well-formed reply (the GENUINE_JSON fixture of src/tests.py). -/
def genuineReply : String :=
  "\x7b\"result\": \"GENUINE\", \"confidence\": 95, \"reasoning\": \"Exact match found.\"\x7d"

/-- A fenced reply (the MARKDOWN_JSON fixture of src/tests.py). -/
def markdownReply : String :=
  "```json\n\x7b\"result\": \"GENUINE\", \"confidence\": 80, \"reasoning\": \"OCR optical confusion only.\"\x7d\n```"

/-- Non-JSON prose (the BAD_JSON fixture of src/tests.py). -/
def proseReply : String := "Sorry, I cannot determine this. Please try again."

/-- A reply whose result is outside the enumerated set. -/
def badResultReply : String :=
  "\x7b\"result\": \"MAYBE\", \"confidence\": 50, \"reasoning\": \"hmm\"\x7d"

/-- A reply whose confidence is a numeric string. -/
def strConfReply : String :=
  "\x7b\"result\": \"GENUINE\", \"confidence\": \"95\", \"reasoning\": \"ok\"\x7d"

/-- A reply whose confidence is a floating value. -/
def floatConfReply : String :=
  "\x7b\"result\": \"GENUINE\", \"confidence\": 9.5, \"reasoning\": \"ok\"\x7d"

/-- A validating reply carrying an out-of-range confidence and an extra
field; `_parse_response` checks neither. -/
def extraFieldsReply : String :=
  "\x7b\"result\": \"GENUINE\", \"confidence\": 150, \"reasoning\": \"ok\", \"extra\": null\x7d"

/-- A validating UNVERIFIABLE reply with nonzero confidence (the system
prompt itself allows UNVERIFIABLE confidence 0-40, and the
UNVERIFIABLE_JSON fixture of src/tests.py uses 10). -/
def unverifiable30Reply : String :=
  "\x7b\"result\": \"UNVERIFIABLE\", \"confidence\": 30, \"reasoning\": \"OCR text is noise.\"\x7d"

/- ----------------------------------------------------------------------
   Helper lemmas
   ---------------------------------------------------------------------- -/

theorem dictGet_dictInsert (c : PyDict) (k : String) (v : JValue) (q : String) :
    dictGet (dictInsert c k v) q = if k = q then some v else dictGet c q := by
  induction c with
  | nil =>
    by_cases h : k = q <;> simp [dictInsert, dictGet, h]
  | cons hd tl ih =>
    obtain ⟨k', v'⟩ := hd
    by_cases h1 : k' = k
    · subst h1
      by_cases h2 : k' = q <;> simp [dictInsert, dictGet, h2]
    · by_cases h2 : k' = q
      · subst h2
        have : ¬k = k' := fun h => h1 h.symm
        simp [dictInsert, dictGet, h1, this]
      · simp [dictInsert, dictGet, h1, h2, ih]

theorem cacheReachable_saved (c : PyDict) (h : CacheReachable c) : SavedCache c := by
  induction h with
  | base => intro k v hv; simp [dictGet] at hv
  | step cache p r o n t _ ih =>
    intro k v hv
    unfold saveToCache at hv
    by_cases hr : (r == "GENUINE" || r == "FAKE") = true
    · rw [hr] at hv
      simp only [Bool.not_true, Bool.false_eq_true, if_false] at hv
      rw [dictGet_dictInsert] at hv
      by_cases hk : p = k
      · rw [if_pos hk] at hv
        refine ⟨r, o, n, t, (Option.some.injEq _ _ ▸ hv).symm, ?_⟩
        simpa using hr
      · rw [if_neg hk] at hv
        exact ih k v hv
    · rw [Bool.not_eq_true] at hr
      rw [hr] at hv
      simp only [Bool.not_false, if_true] at hv
      exact ih k v hv

theorem foldl_count (l : List String) (P : String → Bool) (s : Int) :
    l.foldl (fun a p => if P p then a + 1 else a) s = s + ((l.filter P).length : Int) := by
  induction l generalizing s with
  | nil => simp
  | cons hd tl ih =>
    by_cases h : P hd
    · simp only [List.foldl_cons, List.filter_cons, h, if_true, ih, List.length_cons]
      push_cast
      ring
    · simp only [List.foldl_cons, List.filter_cons, h, if_false, ih, Bool.false_eq_true]

/- ----------------------------------------------------------------------
   C8 — the document scorer
   ---------------------------------------------------------------------- -/

/-- C8: `score_page` returns 0 whenever a denylisted term appears within the
first fifth of the page's text; otherwise it returns 5 if the identifier
appears case-insensitively anywhere plus 1 for each distinct relevance
keyword present, each counted once regardless of repetition; and the result
is an integer that is never negative. -/
theorem score_page_meets_contract (text ic_name : String) :
    scorePage text ic_name = scorePageSpec text ic_name ∧ 0 ≤ scorePage text ic_name := by
  unfold scorePage scorePageSpec
  by_cases h : IGNORE_WORDS.any (fun w =>
      charsSub w.data ((toUpperChars text.data).take ((toUpperChars text.data).length / 5)))
  · simp [h]
  · by_cases h5 : charsSub (toUpperChars ic_name.data) (toUpperChars text.data)
    · simp only [h, h5, Bool.false_eq_true, if_false, if_true, foldl_count]
      refine ⟨rfl, ?_⟩
      have : (0 : Int) ≤ ((KEYWORD_PATTERNS.filter
          (fun p => charsSub p.data (toUpperChars text.data))).length : Int) := by positivity
      omega
    · simp only [h, h5, Bool.false_eq_true, if_false, foldl_count]
      refine ⟨by ring, ?_⟩
      positivity

/- ----------------------------------------------------------------------
   C7 — save_to_cache rejection and the cache-result invariant
   ---------------------------------------------------------------------- -/

/-- C7: `save_to_cache` called with a result outside GENUINE / FAKE leaves
the persisted mapping unchanged, and consequently every entry of a cache
built by `save_to_cache` calls (from an absent, empty or corrupt initial
store) has a result in that two-element set — never UNVERIFIABLE. -/
theorem save_to_cache_rejects_invalid_results :
    (∀ cache p r o n t, ¬(r = "GENUINE" ∨ r = "FAKE") →
        saveToCache cache p r o n t = cache) ∧
    (∀ cache, CacheReachable cache → ∀ k v, dictGet cache k = some v →
        ∃ kvs rs, v = JValue.jobj kvs ∧ dictGet kvs "result" = some (.jstr rs) ∧
          (rs = "GENUINE" ∨ rs = "FAKE") ∧ rs ≠ "UNVERIFIABLE") := by
  constructor
  · intro cache p r o n t hr
    unfold saveToCache
    have h1 : (r == "GENUINE" || r == "FAKE") = false := by
      rw [Bool.or_eq_false_iff]
      constructor <;> rw [beq_eq_false_iff_ne] <;> intro h <;> exact hr (by simp [h])
    rw [h1]
    simp
  · intro cache hreach k v hv
    obtain ⟨r, o, n, t, hshape, hr⟩ := cacheReachable_saved cache hreach k v hv
    refine ⟨_, r, hshape, by simp [savedEntry, dictGet], hr, ?_⟩
    rcases hr with h | h <;> subst h <;> decide

/-- Witness for C7 at a concrete rejected call. -/
theorem save_to_cache_rejects_invalid_results_witness :
    saveToCache [] "XR2206" "UNVERIFIABLE" "" "" "2024-01-01" = [] :=
  save_to_cache_rejects_invalid_results.1 [] "XR2206" "UNVERIFIABLE" "" "" "2024-01-01"
    (by decide)

/- ----------------------------------------------------------------------
   C3 — the guard clause for missing reference text
   ---------------------------------------------------------------------- -/

/-- C3 (amended): when the identifier has no entry in the persisted cache
and the reference text is empty, `None`, or whitespace-only, `verify_ic`
returns UNVERIFIABLE with confidence 0 and never invokes the reasoning
service.  (The cache check precedes the guard clause, so the cache-miss
hypothesis is necessary; see the counterexample.) -/
theorem guard_clause_unverifiable (scanned_text : String) (oem_spec_text : Option String)
    (ic_part_number : String) (cache : PyDict) (replies : Nat → Option String)
    (hmiss : dictGet cache ic_part_number = none)
    (hoem : oemMissing oem_spec_text = true) :
    verifyIC scanned_text oem_spec_text ic_part_number cache replies =
      (.ok [("result", .jstr "UNVERIFIABLE"), ("confidence", .jint 0),
            ("reasoning", .jstr "OEM spec text is missing or empty. Cannot perform verification.")],
       0) := by
  simp [verifyIC, hmiss, hoem]

/-- Witness for C3 (amended) at the demo scenario of src/tests.py. -/
theorem guard_clause_unverifiable_witness :
    verifyIC "UNKNOWN_IC_XR2206" (some "") "XR2206" [] (fun _ => none) =
      (.ok [("result", .jstr "UNVERIFIABLE"), ("confidence", .jint 0),
            ("reasoning", .jstr "OEM spec text is missing or empty. Cannot perform verification.")],
       0) :=
  guard_clause_unverifiable "UNKNOWN_IC_XR2206" (some "") "XR2206" [] (fun _ => none) rfl rfl

/-- Counterexample to C3 as stated: with empty reference text but a cache
entry for the identifier, the cache check wins and `verify_ic` returns the
cached result at confidence 99, not UNVERIFIABLE with confidence 0. -/
theorem guard_clause_counterexample :
    verifyIC "NE555P" (some "") "NE555P"
        (saveToCache [] "NE555P" "GENUINE" "NE555P" "Verified under magnifier"
          "2024-01-01T00:00:00")
        (fun _ => none) =
      (.ok [("result", .jstr "GENUINE"), ("confidence", .jint 99),
            ("reasoning", .jstr
              "Previously verified by human QA on 2024-01-01T00:00:00. Verified under magnifier")],
       0)
    ∧ ("GENUINE" : String) ≠ "UNVERIFIABLE" ∧ (99 : Int) ≠ 0 :=
  ⟨rfl, by decide, by decide⟩

/- ----------------------------------------------------------------------
   C4 — transport-failure and single-retry behaviour
   ---------------------------------------------------------------------- -/

/-- C4: in the reasoning-call phase of `verify_ic` (cache miss, non-empty
reference text): a transport failure on the first call yields UNVERIFIABLE
with confidence 0 after exactly one call; a validation failure on the first
reply leads to exactly two calls in every continuation; a validating retry
reply is returned verbatim; two validation failures yield UNVERIFIABLE with
confidence 0 after exactly two calls. -/
theorem retry_logic (scanned_text : String) (oem_spec_text : Option String)
    (ic_part_number : String) (cache : PyDict) (replies : Nat → Option String)
    (hmiss : dictGet cache ic_part_number = none)
    (hoem : oemMissing oem_spec_text = false) :
    (replies 0 = none →
      verifyIC scanned_text oem_spec_text ic_part_number cache replies =
        (.ok [("result", .jstr "UNVERIFIABLE"), ("confidence", .jint 0),
              ("reasoning", .jstr "API call failed. Unable to reach Groq service.")], 1)) ∧
    (∀ r1, replies 0 = some r1 → parseResponse r1 = none →
      (verifyIC scanned_text oem_spec_text ic_part_number cache replies).2 = 2) ∧
    (∀ r1 r2 d, replies 0 = some r1 → parseResponse r1 = none →
      replies 1 = some r2 → parseResponse r2 = some d →
      verifyIC scanned_text oem_spec_text ic_part_number cache replies = (.ok d, 2)) ∧
    (∀ r1 r2, replies 0 = some r1 → parseResponse r1 = none →
      replies 1 = some r2 → parseResponse r2 = none →
      verifyIC scanned_text oem_spec_text ic_part_number cache replies =
        (.ok [("result", .jstr "UNVERIFIABLE"), ("confidence", .jint 0),
              ("reasoning", .jstr "Model returned an unreadable response after two attempts.")],
         2)) := by
  refine ⟨?_, ?_, ?_, ?_⟩
  · intro h0
    simp [verifyIC, hmiss, hoem, h0]
  · intro r1 h0 hp1
    simp only [verifyIC, hmiss, hoem, h0, hp1]
    cases h1 : replies 1 with
    | none => simp
    | some r2 => cases hp2 : parseResponse r2 <;> simp [hp2]
  · intro r1 r2 d h0 hp1 h1 hp2
    simp [verifyIC, hmiss, hoem, h0, hp1, h1, hp2]
  · intro r1 r2 h0 hp1 h1 hp2
    simp [verifyIC, hmiss, hoem, h0, hp1, h1, hp2]

/-- Witness for C4: bad JSON on the first call, a valid reply on the retry;
the retry's verdict is returned and exactly two calls were made. -/
theorem retry_logic_witness :
    verifyIC "STM32F103C8T6" (some "STM32F103C8T6") "STM32F103C8T6" []
        (fun n => if n = 0 then some proseReply else some genuineReply) =
      (.ok [("result", .jstr "GENUINE"), ("confidence", .jint 95),
            ("reasoning", .jstr "Exact match found.")], 2) :=
  (retry_logic "STM32F103C8T6" (some "STM32F103C8T6") "STM32F103C8T6" []
      (fun n => if n = 0 then some proseReply else some genuineReply) rfl rfl).2.2.1
    proseReply genuineReply
    [("result", .jstr "GENUINE"), ("confidence", .jint 95),
     ("reasoning", .jstr "Exact match found.")]
    rfl rfl rfl rfl

/- ----------------------------------------------------------------------
   C5 — cache hits return the stored result at confidence 99
   ---------------------------------------------------------------------- -/

/-- C5: for every identifier whose cache entry has the CacheEntry fields
(`result` and `timestamp` present), `verify_ic` returns a verdict with
confidence exactly 99 and the entry's result copied verbatim, and makes
zero reasoning-service calls. -/
theorem cache_hit_conf99 (scanned_text : String) (oem_spec_text : Option String)
    (ic_part_number : String) (cache : PyDict) (replies : Nat → Option String)
    (kvs : PyDict) (rv tv : JValue)
    (hhit : dictGet cache ic_part_number = some (.jobj kvs))
    (hr : dictGet kvs "result" = some rv)
    (ht : dictGet kvs "timestamp" = some tv) :
    verifyIC scanned_text oem_spec_text ic_part_number cache replies =
      (.ok [("result", rv), ("confidence", .jint 99),
            ("reasoning", .jstr (pyStrip ("Previously verified by human QA on " ++ pyStr tv ++
              ". " ++ pyStr ((dictGet kvs "notes").getD (.jstr "")))))],
       0) := by
  simp [verifyIC, hhit, buildCacheVerdict, hr, ht]

/-- Witness for C5 at a concrete human-confirmed entry. -/
theorem cache_hit_conf99_witness :
    verifyIC "NE555P" (some "NE555P") "NE555P"
        [("NE555P", savedEntry "GENUINE" "NE555P" "ok" "2024-01-01T00:00:00")]
        (fun _ => none) =
      (.ok [("result", .jstr "GENUINE"), ("confidence", .jint 99),
            ("reasoning", .jstr "Previously verified by human QA on 2024-01-01T00:00:00. ok")],
       0) :=
  cache_hit_conf99 "NE555P" (some "NE555P") "NE555P"
    [("NE555P", savedEntry "GENUINE" "NE555P" "ok" "2024-01-01T00:00:00")] (fun _ => none)
    [("result", .jstr "GENUINE"), ("verified_by", .jstr "human"), ("oem_spec", .jstr "NE555P"),
     ("timestamp", .jstr "2024-01-01T00:00:00"), ("notes", .jstr "ok")]
    (.jstr "GENUINE") (.jstr "2024-01-01T00:00:00") rfl rfl rfl

/- ----------------------------------------------------------------------
   Facts about validated replies (helpers for C1 and C2)
   ---------------------------------------------------------------------- -/

theorem parseResponse_fields (raw : String) (kvs : PyDict)
    (h : parseResponse raw = some kvs) :
    resultOk kvs = true ∧ confidenceOk kvs = true ∧ reasoningOk kvs = true := by
  unfold parseResponse at h
  split at h
  · simp at h
  · split at h
    · split at h
      · rename_i hok
        injection h with h'
        subst h'
        simp only [Bool.and_eq_true] at hok
        exact ⟨hok.1.1, hok.1.2, hok.2⟩
      · simp at h
    · simp at h

theorem resultOk_elim (kvs : PyDict) (h : resultOk kvs = true) :
    ∃ s, dictGet kvs "result" = some (.jstr s) ∧
      (s = "GENUINE" ∨ s = "FAKE" ∨ s = "UNVERIFIABLE") := by
  unfold resultOk at h
  split at h
  · rename_i s heq
    refine ⟨s, heq, ?_⟩
    simp only [Bool.or_eq_true, decide_eq_true_eq] at h
    tauto
  · simp at h

theorem confidenceOk_elim (kvs : PyDict) (h : confidenceOk kvs = true) :
    ∃ cv, dictGet kvs "confidence" = some cv ∧ pyIsInt cv = true := by
  unfold confidenceOk at h
  split at h
  · rename_i v heq
    exact ⟨v, heq, h⟩
  · simp at h

theorem reasoningOk_elim (kvs : PyDict) (h : reasoningOk kvs = true) :
    ∃ m, dictGet kvs "reasoning" = some (.jstr m) := by
  unfold reasoningOk at h
  split at h
  · rename_i s heq
    exact ⟨s, heq⟩
  · simp at h

/- ----------------------------------------------------------------------
   C2 — which verdicts carry UNVERIFIABLE with confidence 0
   ---------------------------------------------------------------------- -/

/-- C2 (amended): on a cache miss, every verdict `verify_ic` returns is
either a validated reasoning-service reply passed through verbatim (whose
confidence is whatever integer the service sent, even for UNVERIFIABLE),
or an internally constructed verdict with result UNVERIFIABLE and
confidence exactly 0. -/
theorem unverifiable_zero_confidence (scanned_text : String) (oem_spec_text : Option String)
    (ic_part_number : String) (cache : PyDict) (replies : Nat → Option String)
    (d : PyDict) (n : Nat)
    (h : verifyIC scanned_text oem_spec_text ic_part_number cache replies = (.ok d, n))
    (hmiss : dictGet cache ic_part_number = none) :
    (∃ r, (replies 0 = some r ∨ replies 1 = some r) ∧ parseResponse r = some d) ∨
    (dictGet d "result" = some (.jstr "UNVERIFIABLE") ∧
     dictGet d "confidence" = some (.jint 0)) := by
  simp only [verifyIC, hmiss] at h
  by_cases hoem : oemMissing oem_spec_text = true
  · simp only [hoem, if_true, Prod.mk.injEq, Except.ok.injEq] at h
    obtain ⟨hd, -⟩ := h
    subst hd
    right
    exact ⟨rfl, rfl⟩
  · rw [Bool.not_eq_true] at hoem
    simp only [hoem, Bool.false_eq_true, if_false] at h
    cases h0 : replies 0 with
    | none =>
      simp only [h0, Prod.mk.injEq, Except.ok.injEq] at h
      obtain ⟨hd, -⟩ := h
      subst hd
      right
      exact ⟨rfl, rfl⟩
    | some r1 =>
      simp only [h0] at h
      cases hp1 : parseResponse r1 with
      | some v =>
        simp only [hp1, Prod.mk.injEq, Except.ok.injEq] at h
        obtain ⟨hd, -⟩ := h
        subst hd
        exact Or.inl ⟨r1, Or.inl rfl, hp1⟩
      | none =>
        simp only [hp1] at h
        cases h1 : replies 1 with
        | none =>
          simp only [h1, Prod.mk.injEq, Except.ok.injEq] at h
          obtain ⟨hd, -⟩ := h
          subst hd
          right
          exact ⟨rfl, rfl⟩
        | some r2 =>
          simp only [h1] at h
          cases hp2 : parseResponse r2 with
          | some v =>
            simp only [hp2, Prod.mk.injEq, Except.ok.injEq] at h
            obtain ⟨hd, -⟩ := h
            subst hd
            exact Or.inl ⟨r2, Or.inr rfl, hp2⟩
          | none =>
            simp only [hp2, Prod.mk.injEq, Except.ok.injEq] at h
            obtain ⟨hd, -⟩ := h
            subst hd
            right
            exact ⟨rfl, rfl⟩

/-- Witness for C2 (amended) at the guard-clause path. -/
theorem unverifiable_zero_confidence_witness :
    (∃ r, ((fun _ : Nat => (none : Option String)) 0 = some r ∨
           (fun _ : Nat => (none : Option String)) 1 = some r) ∧
      parseResponse r = some
        [("result", JValue.jstr "UNVERIFIABLE"), ("confidence", JValue.jint 0),
         ("reasoning",
          JValue.jstr "OEM spec text is missing or empty. Cannot perform verification.")]) ∨
    (dictGet [("result", JValue.jstr "UNVERIFIABLE"), ("confidence", JValue.jint 0),
        ("reasoning",
         JValue.jstr "OEM spec text is missing or empty. Cannot perform verification.")]
        "result" = some (.jstr "UNVERIFIABLE") ∧
     dictGet [("result", JValue.jstr "UNVERIFIABLE"), ("confidence", JValue.jint 0),
        ("reasoning",
         JValue.jstr "OEM spec text is missing or empty. Cannot perform verification.")]
        "confidence" = some (.jint 0)) :=
  unverifiable_zero_confidence "x" none "P" [] (fun _ => none) _ 0 rfl rfl

/-- Counterexample to C2 as stated: a validated UNVERIFIABLE reply with
confidence 30 is passed through verbatim by `verify_ic`. -/
theorem unverifiable_zero_confidence_counterexample :
    verifyIC "noise" (some "NE555P") "NE555P" [] (fun _ => some unverifiable30Reply) =
      (.ok [("result", .jstr "UNVERIFIABLE"), ("confidence", .jint 30),
            ("reasoning", .jstr "OCR text is noise.")], 1)
    ∧ (30 : Int) ≠ 0 :=
  ⟨rfl, by decide⟩

/- ----------------------------------------------------------------------
   C1 — shape of every verdict verify_ic returns
   ---------------------------------------------------------------------- -/

/-- C1 (amended): for every input triple, every reasoning-service
behaviour, and every persisted cache whose entries were written by
`save_to_cache`, `verify_ic` returns (never raises) a verdict containing
the three fields result, confidence, reasoning, with result one of the
three enumerated values and confidence a Python integer.  (A validated
reply may add extra fields and its confidence is not range-checked; see
the counterexample.) -/
theorem verify_ic_returns_wellformed (scanned_text : String) (oem_spec_text : Option String)
    (ic_part_number : String) (cache : PyDict) (replies : Nat → Option String)
    (hc : SavedCache cache) :
    ∃ d n, verifyIC scanned_text oem_spec_text ic_part_number cache replies = (.ok d, n) ∧
      (∃ rs, dictGet d "result" = some (.jstr rs) ∧
        (rs = "GENUINE" ∨ rs = "FAKE" ∨ rs = "UNVERIFIABLE")) ∧
      (∃ cv, dictGet d "confidence" = some cv ∧ pyIsInt cv = true) ∧
      (∃ m, dictGet d "reasoning" = some (.jstr m)) := by
  cases hhit : dictGet cache ic_part_number with
  | some v =>
    obtain ⟨r, o, nts, t, hshape, hr⟩ := hc ic_part_number v hhit
    subst hshape
    have hv : verifyIC scanned_text oem_spec_text ic_part_number cache replies =
        (.ok [("result", .jstr r), ("confidence", .jint 99),
              ("reasoning", .jstr (pyStrip
                ("Previously verified by human QA on " ++ t ++ ". " ++ nts)))], 0) := by
      simp [verifyIC, hhit, buildCacheVerdict, savedEntry, dictGet, pyStr]
    refine ⟨_, _, hv, ⟨r, rfl, ?_⟩, ⟨.jint 99, rfl, rfl⟩, ⟨_, rfl⟩⟩
    rcases hr with h | h
    · exact Or.inl h
    · exact Or.inr (Or.inl h)
  | none =>
    by_cases hoem : oemMissing oem_spec_text = true
    · exact ⟨[("result", .jstr "UNVERIFIABLE"), ("confidence", .jint 0),
          ("reasoning", .jstr "OEM spec text is missing or empty. Cannot perform verification.")],
        0, by simp [verifyIC, hhit, hoem],
        ⟨"UNVERIFIABLE", rfl, Or.inr (Or.inr rfl)⟩, ⟨.jint 0, rfl, rfl⟩, ⟨_, rfl⟩⟩
    · rw [Bool.not_eq_true] at hoem
      cases h0 : replies 0 with
      | none =>
        exact ⟨[("result", .jstr "UNVERIFIABLE"), ("confidence", .jint 0),
            ("reasoning", .jstr "API call failed. Unable to reach Groq service.")],
          1, by simp [verifyIC, hhit, hoem, h0],
          ⟨"UNVERIFIABLE", rfl, Or.inr (Or.inr rfl)⟩, ⟨.jint 0, rfl, rfl⟩, ⟨_, rfl⟩⟩
      | some r1 =>
        cases hp1 : parseResponse r1 with
        | some v =>
          obtain ⟨h1, h2, h3⟩ := parseResponse_fields r1 v hp1
          obtain ⟨rs, hrs, hrs3⟩ := resultOk_elim v h1
          obtain ⟨cv, hcv, hcvInt⟩ := confidenceOk_elim v h2
          obtain ⟨m, hm⟩ := reasoningOk_elim v h3
          exact ⟨v, 1, by simp [verifyIC, hhit, hoem, h0, hp1],
            ⟨rs, hrs, hrs3⟩, ⟨cv, hcv, hcvInt⟩, ⟨m, hm⟩⟩
        | none =>
          cases h1 : replies 1 with
          | none =>
            exact ⟨[("result", .jstr "UNVERIFIABLE"), ("confidence", .jint 0),
                ("reasoning", .jstr "API call failed on retry. Unable to reach Groq service.")],
              2, by simp [verifyIC, hhit, hoem, h0, hp1, h1],
              ⟨"UNVERIFIABLE", rfl, Or.inr (Or.inr rfl)⟩, ⟨.jint 0, rfl, rfl⟩, ⟨_, rfl⟩⟩
          | some r2 =>
            cases hp2 : parseResponse r2 with
            | some v =>
              obtain ⟨hh1, hh2, hh3⟩ := parseResponse_fields r2 v hp2
              obtain ⟨rs, hrs, hrs3⟩ := resultOk_elim v hh1
              obtain ⟨cv, hcv, hcvInt⟩ := confidenceOk_elim v hh2
              obtain ⟨m, hm⟩ := reasoningOk_elim v hh3
              exact ⟨v, 2, by simp [verifyIC, hhit, hoem, h0, hp1, h1, hp2],
                ⟨rs, hrs, hrs3⟩, ⟨cv, hcv, hcvInt⟩, ⟨m, hm⟩⟩
            | none =>
              exact ⟨[("result", .jstr "UNVERIFIABLE"), ("confidence", .jint 0),
                  ("reasoning",
                   .jstr "Model returned an unreadable response after two attempts.")],
                2, by simp [verifyIC, hhit, hoem, h0, hp1, h1, hp2],
                ⟨"UNVERIFIABLE", rfl, Or.inr (Or.inr rfl)⟩, ⟨.jint 0, rfl, rfl⟩, ⟨_, rfl⟩⟩

/-- Witness for C1 (amended) at a well-formed service reply and the empty
cache. -/
theorem verify_ic_returns_wellformed_witness :
    ∃ d n, verifyIC "STM32F103C8T6" (some "STM32F103C8T6") "STM32F103C8T6" []
        (fun _ => some genuineReply) = (.ok d, n) ∧
      (∃ rs, dictGet d "result" = some (.jstr rs) ∧
        (rs = "GENUINE" ∨ rs = "FAKE" ∨ rs = "UNVERIFIABLE")) ∧
      (∃ cv, dictGet d "confidence" = some cv ∧ pyIsInt cv = true) ∧
      (∃ m, dictGet d "reasoning" = some (.jstr m)) :=
  verify_ic_returns_wellformed "STM32F103C8T6" (some "STM32F103C8T6") "STM32F103C8T6" []
    (fun _ => some genuineReply) (fun _ _ hv => Option.noConfusion hv)

/-- Counterexample to C1 as stated: a validating reply with confidence 150
and a fourth field is returned verbatim, so the verdict does not have
exactly three fields and its confidence is not in [0, 100]. -/
theorem verify_ic_returns_wellformed_counterexample :
    verifyIC "STM32F103C8T6" (some "STM32F103C8T6") "STM32F103C8T6" []
        (fun _ => some extraFieldsReply) =
      (.ok [("result", .jstr "GENUINE"), ("confidence", .jint 150),
            ("reasoning", .jstr "ok"), ("extra", .jnull)], 1)
    ∧ (100 : Int) < 150
    ∧ [("result", JValue.jstr "GENUINE"), ("confidence", JValue.jint 150),
       ("reasoning", JValue.jstr "ok"), ("extra", JValue.jnull)].length = 4 :=
  ⟨rfl, by decide, rfl⟩

/- ----------------------------------------------------------------------
   C6 — the response validator _parse_response
   ---------------------------------------------------------------------- -/

/-- C6: `_parse_response` returns a well-formed reply's verdict unchanged
(after stripping and an optional single fence layer, the parsed object is
returned as-is); any reply whose parsed object fails a field check is
rejected whole, never partially accepted; and the concrete rejection
classes of the spec hold: a fenced reply with a language tag is recovered,
a result outside the enumerated set, a numeric-string confidence, a
floating confidence, empty input and non-JSON prose are all invalid. -/
theorem parse_response_contract :
    (∀ raw c kvs, stripFences (pyStrip raw) = some c →
      jsonLoads (pyStrip c) = some (.jobj kvs) →
      (resultOk kvs && confidenceOk kvs && reasoningOk kvs) = true →
      parseResponse raw = some kvs) ∧
    (∀ raw c kvs, stripFences (pyStrip raw) = some c →
      jsonLoads (pyStrip c) = some (.jobj kvs) →
      (resultOk kvs && confidenceOk kvs && reasoningOk kvs) = false →
      parseResponse raw = none) ∧
    parseResponse markdownReply =
      some [("result", .jstr "GENUINE"), ("confidence", .jint 80),
            ("reasoning", .jstr "OCR optical confusion only.")] ∧
    parseResponse badResultReply = none ∧
    parseResponse strConfReply = none ∧
    parseResponse floatConfReply = none ∧
    parseResponse "" = none ∧
    parseResponse proseReply = none := by
  refine ⟨?_, ?_, rfl, rfl, rfl, rfl, rfl, rfl⟩
  · intro raw c kvs hsf hjl hok
    simp [parseResponse, hsf, hjl, hok]
  · intro raw c kvs hsf hjl hok
    simp [parseResponse, hsf, hjl, hok]

/-- Witness for C6: the unchanged round-trip of the GENUINE_JSON fixture
through the universal passthrough clause. -/
theorem parse_response_contract_witness :
    parseResponse genuineReply =
      some [("result", .jstr "GENUINE"), ("confidence", .jint 95),
            ("reasoning", .jstr "Exact match found.")] :=
  parse_response_contract.1 genuineReply (pyStrip genuineReply)
    [("result", .jstr "GENUINE"), ("confidence", .jint 95),
     ("reasoning", .jstr "Exact match found.")]
    rfl rfl rfl

/- ----------------------------------------------------------------------
   C9 — the passage extractor and regex identifiers
   ---------------------------------------------------------------------- -/

theorem reCompileChars_all_lit (cs : List Char)
    (h : ∀ c ∈ cs, isRegexMeta c = false) :
    reCompileChars cs = some (cs.map RTok.lit) := by
  induction cs with
  | nil => rfl
  | cons c rest ih =>
    have hc : isRegexMeta c = false := h c (List.mem_cons_self c rest)
    have hdot : ¬(c = '.') := by
      intro heq
      subst heq
      simp [isRegexMeta, regexMetaChars] at hc
    have hrest := ih (fun x hx => h x (List.mem_cons_of_mem c hx))
    simp [reCompileChars, hdot, hc, hrest]

theorem reMatchHere_lit (needle hay : List Char) :
    reMatchHere (needle.map RTok.lit) hay =
      charsLeads (toLowerChars needle) (toLowerChars hay) := by
  induction needle generalizing hay with
  | nil => cases hay <;> rfl
  | cons c rest ih =>
    cases hay with
    | nil => rfl
    | cons d ds => simp [reMatchHere, charsLeads, toLowerChars, ih]

theorem reSearch_lit (needle hay : List Char) :
    reSearch (needle.map RTok.lit) hay = ciSub needle hay := by
  induction hay with
  | nil => simp [reSearch, ciSub, charsSub, toLowerChars, reMatchHere_lit]
  | cons d ds ih => simp [reSearch, ciSub, charsSub, toLowerChars, reMatchHere_lit, ih]

/-- C9 (amended): for every identifier free of regex metacharacters,
`extract_relevant_lines` returns the newline-join of the stripped forms of
exactly those non-blank lines whose stripped form contains the identifier
as a case-insensitive substring or contains a relevance keyword.  (For an
identifier with metacharacters the identifier is compiled as a regex
pattern, so matching differs from substring containment; see the
counterexample.) -/
theorem extract_relevant_lines_amended (text ic_name : String)
    (h : ∀ c ∈ ic_name.data, isRegexMeta c = false) :
    extractRelevantLines text ic_name =
      some (extractRelevantLinesStrippedSpec text ic_name) := by
  have hpt : ∀ (line : List Char) (acc : List (List Char)),
      (if (pyStripChars line).isEmpty then acc
       else if reSearch (ic_name.data.map RTok.lit) (pyStripChars line) then
         pyStripChars line :: acc
       else if KEYWORD_PATTERNS.any
           (fun kw => charsSub kw.data (toUpperChars (pyStripChars line))) then
         pyStripChars line :: acc
       else acc) =
      (if (pyStripChars line).isEmpty then acc
       else if ciSub ic_name.data (pyStripChars line)
           || KEYWORD_PATTERNS.any
             (fun kw => charsSub kw.data (toUpperChars (pyStripChars line))) then
         pyStripChars line :: acc
       else acc) := by
    intro line acc
    rw [reSearch_lit]
    by_cases h1 : (pyStripChars line).isEmpty
    · simp [h1]
    · by_cases h2 : ciSub ic_name.data (pyStripChars line)
      · simp [h1, h2]
      · by_cases h3 : KEYWORD_PATTERNS.any
            (fun kw => charsSub kw.data (toUpperChars (pyStripChars line)))
        · simp [h1, h2, h3]
        · simp [h1, h2, h3]
  have hfold : ∀ lines : List (List Char),
      lines.foldr (fun line acc =>
        if (pyStripChars line).isEmpty then acc
        else if reSearch (ic_name.data.map RTok.lit) (pyStripChars line) then
          pyStripChars line :: acc
        else if KEYWORD_PATTERNS.any
            (fun kw => charsSub kw.data (toUpperChars (pyStripChars line))) then
          pyStripChars line :: acc
        else acc) [] =
      lines.foldr (fun line acc =>
        if (pyStripChars line).isEmpty then acc
        else if ciSub ic_name.data (pyStripChars line)
            || KEYWORD_PATTERNS.any
              (fun kw => charsSub kw.data (toUpperChars (pyStripChars line))) then
          pyStripChars line :: acc
        else acc) [] := by
    intro lines
    induction lines with
    | nil => rfl
    | cons l ls ih =>
      rw [List.foldr_cons, List.foldr_cons, ih]
      exact hpt l _
  show (match reCompileChars ic_name.data with
    | none => none
    | some pat => some (String.mk (joinNl ((splitLinesChars text.data).foldr (fun line acc =>
        if (pyStripChars line).isEmpty then acc
        else if reSearch pat (pyStripChars line) then pyStripChars line :: acc
        else if KEYWORD_PATTERNS.any
            (fun kw => charsSub kw.data (toUpperChars (pyStripChars line))) then
          pyStripChars line :: acc
        else acc) [])))) = _
  rw [reCompileChars_all_lit ic_name.data h]
  exact congrArg (fun r => some (String.mk (joinNl r))) (hfold (splitLinesChars text.data))

/-- Witness for C9 (amended) at a marking-legend page. -/
theorem extract_relevant_lines_amended_witness :
    extractRelevantLines "Top Mark: F103C8T6\n\n  noise line  \nSTM32F103C8T6 here"
        "STM32F103C8T6" =
      some (extractRelevantLinesStrippedSpec
        "Top Mark: F103C8T6\n\n  noise line  \nSTM32F103C8T6 here" "STM32F103C8T6") :=
  extract_relevant_lines_amended "Top Mark: F103C8T6\n\n  noise line  \nSTM32F103C8T6 here"
    "STM32F103C8T6" (by decide)

/-- Counterexample to C9 as stated: with identifier `A.B`, the source's
regex matching keeps the line `AXB` (the `.` matches `X`), while the
claim's substring contract keeps nothing. -/
theorem extract_relevant_lines_counterexample :
    extractRelevantLines "AXB" "A.B" = some "AXB" ∧
    extractRelevantLinesClaim "AXB" "A.B" = "" ∧
    ¬(some (extractRelevantLinesClaim "AXB" "A.B") = extractRelevantLines "AXB" "A.B") := by
  refine ⟨rfl, rfl, ?_⟩
  intro h
  have h1 : some "" = some "AXB" := h
  have h2 : ("" : String) = "AXB" := Option.some.injEq .. ▸ by injection h1
  exact absurd h2 (by decide)

/- ----------------------------------------------------------------------
   C10 — session memoization shadows later cache confirmations
   ---------------------------------------------------------------------- -/

/-- C10: once the memoized `verify_ic` has computed a verdict for a triple,
a later successful `save_to_cache` for the same identifier does not change
the verdict of a repeated identical call: the memo entry is hit, the new
cache entry is not consulted, and no reasoning-service call is made. -/
theorem memoization_shadows_cache (cache : PyDict) (replies replies2 : Nat → Option String)
    (scanned_text : String) (oem_spec_text : Option String)
    (ic_part_number result oem_spec notes timestamp : String) (d : PyDict)
    (h1 : (verifyMemo [] cache replies scanned_text oem_spec_text ic_part_number).1 = .ok d)
    (hres : result = "GENUINE" ∨ result = "FAKE") :
    (verifyMemo (verifyMemo [] cache replies scanned_text oem_spec_text ic_part_number).2.1
        (saveToCache cache ic_part_number result oem_spec notes timestamp) replies2
        scanned_text oem_spec_text ic_part_number).1 = .ok d ∧
    (verifyMemo (verifyMemo [] cache replies scanned_text oem_spec_text ic_part_number).2.1
        (saveToCache cache ic_part_number result oem_spec notes timestamp) replies2
        scanned_text oem_spec_text ic_part_number).2.2 = 0 := by
  clear hres
  cases hv : verifyIC scanned_text oem_spec_text ic_part_number cache replies with
  | mk out n =>
    cases out with
    | error e =>
      exfalso
      rw [show (verifyMemo [] cache replies scanned_text oem_spec_text ic_part_number) =
          (.error e, [], n) by simp [verifyMemo, memoFind, hv]] at h1
      simp at h1
    | ok d0 =>
      have hm : verifyMemo [] cache replies scanned_text oem_spec_text ic_part_number =
          (.ok d0, [((scanned_text, oem_spec_text, ic_part_number), d0)], n) := by
        simp [verifyMemo, memoFind, hv, lruCacheSize]
      rw [hm] at h1 ⊢
      have hd : d0 = d := by
        simpa using h1
      subst hd
      constructor <;> simp [verifyMemo, memoFind]

/-- Witness for C10 on a concrete session: guard-clause verdict first, a
GENUINE confirmation saved, and the repeated call still returns the
memoized guard verdict with zero service calls. -/
theorem memoization_shadows_cache_witness :
    (verifyMemo (verifyMemo [] [] (fun _ => none) "XR2206" none "XR2206").2.1
        (saveToCache [] "XR2206" "GENUINE" "XR2206" "" "2024-01-01") (fun _ => none)
        "XR2206" none "XR2206").1 =
      .ok [("result", .jstr "UNVERIFIABLE"), ("confidence", .jint 0),
           ("reasoning", .jstr "OEM spec text is missing or empty. Cannot perform verification.")] ∧
    (verifyMemo (verifyMemo [] [] (fun _ => none) "XR2206" none "XR2206").2.1
        (saveToCache [] "XR2206" "GENUINE" "XR2206" "" "2024-01-01") (fun _ => none)
        "XR2206" none "XR2206").2.2 = 0 :=
  memoization_shadows_cache [] (fun _ => none) (fun _ => none) "XR2206" none "XR2206"
    "GENUINE" "XR2206" "" "2024-01-01"
    [("result", .jstr "UNVERIFIABLE"), ("confidence", .jint 0),
     ("reasoning", .jstr "OEM spec text is missing or empty. Cannot perform verification.")]
    rfl (Or.inl rfl)
